import Mathlib

/-!
Shallow embedding of `src/main.cpp` (single-file C++ tutorial program).

The program writes to standard output only.  Output is modelled as a
`List String` of events, one event per `std::cout`/`printf` statement
(one per loop iteration for output inside a loop); `std::endl` and a
literal `"\n"` both contribute the character `\n` to the event.

The only run-to-run variation in the program's observable behaviour is
the single printed pointer value (`demonstrateReferencesAndPointers`
prints the address of a local variable).  The environment of a run is
therefore modelled as the textual rendering of that address.  The
program never reads standard input (all input code in the source is
commented out) and `main` takes no parameters, so a run is a function
of the environment alone; standard input and the argument vector are
extra parameters of `programRun` that the translation of `main`
never consults, exactly as in the source.

Floating-point values are printed by the program only as fixed literal
texts (e.g. `3.14159` printed with default `cout` formatting); the
events record the exact characters the C++ iostream formatting
produces for those literals, as string constants.
-/

namespace CppTutorial

/-- Environment of a run: the rendering of the one pointer value that
`demonstrateReferencesAndPointers` prints (address of a local variable). -/
structure Env where
  addrStr : String
deriving DecidableEq

/-- C++ exception values thrown/caught in `demonstrateErrorHandling`:
`std::runtime_error`, `std::out_of_range`, any other `std::exception`,
and a non-standard exception (caught only by `catch (...)`). -/
inductive CppExc where
  | runtimeError (msg : String)
  | outOfRange (msg : String)
  | otherStd (msg : String)
  | nonStd
deriving DecidableEq

/-- `e.what()` for a standard exception; empty for a non-standard one. -/
def excWhat : CppExc → String
  | .runtimeError m => m
  | .outOfRange m => m
  | .otherStd m => m
  | .nonStd => ""

/-- Does the exception match `catch (const std::runtime_error&)`? -/
def isRuntimeErr : CppExc → Bool
  | .runtimeError _ => true
  | _ => false

/-- Does the exception match `catch (const std::out_of_range&)`? -/
def isOutOfRangeErr : CppExc → Bool
  | .outOfRange _ => true
  | _ => false

/-- Does the exception match `catch (const std::exception&)`?
(`runtime_error` and `out_of_range` both derive from `std::exception`.) -/
def isStdErr : CppExc → Bool
  | .nonStd => false
  | _ => true

/-- `int returnSum(int a, int b) { return a + b; }` (main.cpp:200). -/
def returnSum (a b : Int) : Int := a + b

/-- `class Person` (main.cpp:241): fields `name`, `age`. -/
structure Person where
  name : String
  age : Int
deriving DecidableEq

/-- `Person::getName` (main.cpp:264). -/
def Person.getName (p : Person) : String := p.name

/-- `Person::getAge` (main.cpp:267). -/
def Person.getAge (p : Person) : Int := p.age

/-- Output of `Person::introduce` (main.cpp:259). -/
def Person.introduce (p : Person) : String :=
  "Hi, I'm " ++ p.name ++ " and I'm " ++ toString p.age ++ " years old.\n"

/-- `class Employee : public Person` (main.cpp:272): adds `company`. -/
structure Employee extends Person where
  company : String
deriving DecidableEq

/-- Output of `Employee::introduce` (main.cpp:283), which hides
`Person::introduce`; a call `e.introduce()` on an object whose static
type is `Employee` resolves to this member. -/
def Employee.introduce (e : Employee) : String :=
  "Hi, I'm " ++ e.toPerson.getName ++ ", " ++ toString e.toPerson.getAge
    ++ " years old, and I work at " ++ e.company ++ ".\n"

/-- The `Employee dave("Dave", 40, "Acme Inc")` object (main.cpp:307). -/
def dave : Employee := ⟨⟨"Dave", 40⟩, "Acme Inc"⟩

/-- `std::vector::push_back`: append one element at the end. -/
def pushBack (xs : List Int) (x : Int) : List Int := xs ++ [x]

/-- `std::vector::pop_back`: remove the last element. -/
def popBack (xs : List Int) : List Int := xs.dropLast

/-- Position of the first occurrence of `v`, as computed from
`std::find(xs.begin(), xs.end(), v)` via `it - xs.begin()`;
`none` when `std::find` returns `xs.end()`. -/
def findIndexOf : List Int → Int → Option Nat
  | [], _ => none
  | x :: xs, v => if x = v then some 0 else (findIndexOf xs v).map (· + 1)

/-- One step of insertion into a sorted list (for `std::sort`). -/
def insertSorted (x : Int) : List Int → List Int
  | [] => [x]
  | y :: ys => if x ≤ y then x :: y :: ys else y :: insertSorted x ys

/-- `std::sort(xs.begin(), xs.end())`: sort ascending. -/
def sortInts (xs : List Int) : List Int := xs.foldr insertSorted []

/-- Lexicographic comparison of character lists by code point — the
order `std::string::operator<` induces on the (ASCII) keys used here. -/
def charListLt : List Char → List Char → Bool
  | [], [] => false
  | [], _ :: _ => true
  | _ :: _, [] => false
  | a :: as, b :: bs =>
    if a.toNat < b.toNat then true
    else if b.toNat < a.toNat then false
    else charListLt as bs

/-- `std::string` comparison `a < b`. -/
def strLt (a b : String) : Bool := charListLt a.data b.data

/-- `std::map<std::string,int>` insertion `m[k] = v`: the map keeps its
entries ordered by key (lexicographic `std::string` order). -/
def mapInsert (m : List (String × Int)) (k : String) (v : Int) : List (String × Int) :=
  match m with
  | [] => [(k, v)]
  | (k₁, v₁) :: rest =>
    if k = k₁ then (k, v) :: rest
    else if strLt k k₁ then (k, v) :: (k₁, v₁) :: rest
    else (k₁, v₁) :: mapInsert rest k v

/-- `std::vector::at`: bounds-checked access; throws `std::out_of_range`
when the index is out of bounds (main.cpp:425). -/
def vecAt (xs : List Int) (i : Nat) : Except CppExc Int :=
  if h : i < xs.length then .ok (xs.get ⟨i, h⟩)
  else .error (.outOfRange ("vector::_M_range_check"))

/-- Output of `demonstrateBasicSyntax` (main.cpp:60). -/
def demonstrateBasicSyntaxEvents : List String :=
  ["\n----- Basic Syntax -----\n",
   "Hello, World!\n"]

/-- Output of `demonstrateVariablesAndTypes` (main.cpp:79).
`floatingPoint = 3.14159` prints as `3.14159` under default `cout`
formatting; `static_cast<double>(5) / 2` prints as `2.5`; the
truncating integer division `5/2` is `Int.tdiv 5 2` (C++ division
truncates toward zero). -/
def demonstrateVariablesAndTypesEvents : List String :=
  ["\n----- Variables and Types -----\n",
   "Integer: " ++ toString (42 : Int) ++ "\n",
   "Double: 3.14159\n",
   "Char: A\n",
   "Boolean: true\n",
   "String: Hello, C++\n",
   "5/2 with conversion: 2.5\n",
   "5/2 without conversion: " ++ toString (Int.tdiv 5 2) ++ "\n"]

/-- Iterations of `for (int i = 0; i < 5; i++) std::cout << i << " ";`
(main.cpp:144). -/
def forLoopEvents : List String :=
  (List.range 5).map (fun i => toString i ++ " ")

/-- Iterations of `while (i < 5) { std::cout << i << " "; i++; }`
(main.cpp:160), structurally recursive on the loop variant `5 - i`
(passed as the first argument so that the definition reduces in the
kernel): test the condition, then run the body and repeat. -/
def whileLoopAux : Nat → Nat → List String
  | 0, _ => []
  | fuel + 1, i =>
    if i < 5 then (toString i ++ " ") :: whileLoopAux fuel (i + 1) else []

/-- The while loop of `demonstrateControlFlow` started at counter `i`. -/
def whileLoopEvents (i : Nat) : List String := whileLoopAux (5 - i) i

/-- Iterations of `do { std::cout << i << " "; i++; } while (i < 5);`
(main.cpp:169), structurally recursive on the loop variant `5 - i`:
the body runs once before the condition is first tested. -/
def doWhileLoopAux : Nat → Nat → List String
  | 0, i => [toString i ++ " "]
  | fuel + 1, i =>
    (toString i ++ " ") ::
      (if i + 1 < 5 then doWhileLoopAux fuel (i + 1) else [])

/-- The do-while loop of `demonstrateControlFlow` started at counter `i`. -/
def doWhileLoopEvents (i : Nat) : List String := doWhileLoopAux (5 - i) i

/-- The local `std::vector<int> numbers = {1, 2, 3, 4, 5}` of
`demonstrateControlFlow` (main.cpp:150). -/
def controlFlowNumbers : List Int := [1, 2, 3, 4, 5]

/-- Output of `demonstrateControlFlow` (main.cpp:116), with `x = 10`:
the if/else-if/else chain, the switch on `x`, then the four loops. -/
def demonstrateControlFlowEvents : List String :=
  let x : Int := 10
  ["\n----- Control Flow -----\n",
   if x > 5 then "x is greater than 5\n"
   else if x = 5 then "x is equal to 5\n"
   else "x is less than 5\n",
   if x = 5 then "x is 5\n"
   else if x = 10 then "x is 10\n"
   else "x is neither 5 nor 10\n",
   "For loop: "] ++ forLoopEvents ++ ["\n",
   "Range-based for loop: "]
    ++ controlFlowNumbers.map (fun n => toString n ++ " ") ++ ["\n",
   "While loop: "] ++ whileLoopEvents 0 ++ ["\n",
   "Do-while loop: "] ++ doWhileLoopEvents 0 ++ ["\n"]

/-- The lambda `[](int a = 1, int b = 2) { return a + b; }` of
`demonstrateFunctions` (main.cpp:190); the default arguments `1` and
`2` are supplied explicitly at call sites that omit them. -/
def defaultParamFunction (a b : Int) : Int := a + b

/-- Output of `demonstrateFunctions(value)` (main.cpp:178). -/
def demonstrateFunctionsEvents (value : Int) : List String :=
  ["\n----- Functions -----\n",
   "Function parameter: " ++ toString value ++ "\n",
   "Inside local scope: " ++ toString (100 : Int) ++ "\n",
   "Default params (no args): " ++ toString (defaultParamFunction 1 2) ++ "\n",
   "Default params (one arg): " ++ toString (defaultParamFunction 10 2) ++ "\n",
   "Default params (two args): " ++ toString (defaultParamFunction 10 20) ++ "\n"]

/-- Output of `demonstrateReferencesAndPointers` (main.cpp:205).
`original` starts at 42 and becomes 100 through the reference;
`value` starts at 42 and becomes 200 through the pointer; the printed
pointer itself is the run environment's address rendering. -/
def demonstrateReferencesAndPointersEvents (env : Env) : List String :=
  let original : Int := 42
  let originalAfter : Int := 100
  let value : Int := 42
  let valueAfter : Int := 200
  let smartPtrValue : Int := 42
  ["\n----- References and Pointers -----\n",
   "Original: " ++ toString original ++ "\n",
   "Reference: " ++ toString original ++ "\n",
   "After modifying reference, original: " ++ toString originalAfter ++ "\n",
   "Value: " ++ toString value ++ "\n",
   "Pointer address: " ++ env.addrStr ++ "\n",
   "Dereferenced pointer: " ++ toString value ++ "\n",
   "After modifying pointer, value: " ++ toString valueAfter ++ "\n",
   "Smart pointer value: " ++ toString smartPtrValue ++ "\n"]

/-- Output of `demonstrateClasses` (main.cpp:289): constructor and
destructor messages interleaved with the `introduce` calls.  `alice`,
`charlie` and `dave` are destroyed in reverse construction order when
the routine returns; `bob` is deleted explicitly.  `dave.introduce()`
has static type `Employee`, so it resolves to `Employee::introduce`. -/
def demonstrateClassesEvents : List String :=
  let alice : Person := ⟨"Alice", 30⟩
  let bob : Person := ⟨"Bob", 25⟩
  let charlie : Person := ⟨"Charlie", 35⟩
  ["\n----- Classes and OOP -----\n",
   "Person created: " ++ alice.name ++ "\n",
   alice.introduce,
   "Person created: " ++ bob.name ++ "\n",
   bob.introduce,
   "Person destroyed: " ++ bob.name ++ "\n",
   "Person created: " ++ charlie.name ++ "\n",
   charlie.introduce,
   "Person created: " ++ dave.toPerson.name ++ "\n",
   "Employee created at " ++ dave.company ++ "\n",
   dave.introduce,
   "Person destroyed: " ++ dave.toPerson.name ++ "\n",
   "Person destroyed: " ++ charlie.name ++ "\n",
   "Person destroyed: " ++ alice.name ++ "\n"]

/-- The lambda `[](int a, int b) { return a + b; }` of
`demonstrateModernCpp` (main.cpp:323). -/
def lambdaAdd (a b : Int) : Int := a + b

/-- The capturing lambda `[multiplier](int x) { return x * multiplier; }`
with `multiplier = 10` (main.cpp:328). -/
def lambdaMultiply (multiplier x : Int) : Int := x * multiplier

/-- Output of `demonstrateModernCpp` (main.cpp:312).  After
`std::move(source)` the destination holds the original text and the
moved-from `std::string` is left empty (libstdc++ behaviour for a
non-SSO-exempt string of this length). -/
def demonstrateModernCppEvents : List String :=
  let multiplier : Int := 10
  ["\n----- Modern C++ Features -----\n",
   "Auto variables: " ++ toString (42 : Int) ++ ", hello, 3.14159\n",
   "Lambda result: " ++ toString (lambdaAdd 3 4) ++ "\n",
   "Lambda with capture: " ++ toString (lambdaMultiply multiplier 5) ++ "\n",
   "After move, destination: Original string\n",
   "After move, source: \n",
   "Initializer list: "]
    ++ ([1, 2, 3, 4, 5] : List Int).map (fun n => toString n ++ " ") ++ ["\n"]

/-- The initial `std::vector<int> numbers = {10, 20, 30, 40, 50}` of
`demonstrateStl` (main.cpp:352). -/
def stlNumbers : List Int := [10, 20, 30, 40, 50]

/-- The `std::map<std::string,int> ages` of `demonstrateStl`
(main.cpp:364), built by the three insertions in source order. -/
def stlAges : List (String × Int) :=
  mapInsert (mapInsert (mapInsert [] ("Alice") 30) ("Bob") 25) ("Charlie") 35

/-- Output of `demonstrateStl` (main.cpp:348): vector after
push_back/pop_back, the map, `std::find` for 30, the sorted vector,
and the doubled (transformed) vector. -/
def demonstrateStlEvents : List String :=
  let numbers := popBack (pushBack stlNumbers 60)
  let sorted := sortInts numbers
  let doubled := sorted.map (fun x => x * 2)
  ["\n----- Standard Template Library -----\n",
   "Vector elements: "] ++ numbers.map (fun n => toString n ++ " ") ++ ["\n",
   "Map elements:\n"]
    ++ stlAges.map (fun p => p.1 ++ ": " ++ toString p.2 ++ "\n")
    ++ ["Find 30 in vector: ",
   match findIndexOf numbers 30 with
   | some k => "Found at position " ++ toString k ++ "\n"
   | none => "Not found\n",
   "Sorted vector: "] ++ sorted.map (fun n => toString n ++ " ") ++ ["\n",
   "Doubled vector: "] ++ doubled.map (fun n => toString n ++ " ") ++ ["\n"]

/-- The try-block of `demonstrateErrorHandling` (main.cpp:408),
parameterised by the local `denominator` (the source fixes it to `2`
with the comment `// Try changing this to 0`): output produced inside
the block so far, paired with the exception that aborted it, if any. -/
def demonstrateErrorHandlingTry (denominator : Int) : List String × Option CppExc :=
  let evs := ["Attempting division...\n"]
  if denominator = 0 then
    (evs, some (.runtimeError ("Division by zero!")))
  else
    let result := Int.tdiv 10 denominator
    let evs := evs ++ ["Result: " ++ toString result ++ "\n"]
    match vecAt [1, 2, 3] 1 with
    | .ok v => (evs ++ ["vec[1]: " ++ toString v ++ "\n"], none)
    | .error e => (evs, some e)

/-- The catch ladder of `demonstrateErrorHandling` (main.cpp:427):
handlers are tried in source order — `runtime_error`, `out_of_range`,
`std::exception`, `catch (...)` — and the first matching one produces
the printed line. -/
def handlerFor (e : CppExc) : Option String :=
  if isRuntimeErr e then some ("Runtime error: " ++ excWhat e ++ "\n")
  else if isOutOfRangeErr e then some ("Out of range error: " ++ excWhat e ++ "\n")
  else if isStdErr e then some ("Standard exception: " ++ excWhat e ++ "\n")
  else some ("Unknown exception occurred\n")

/-- `try { body } catch-ladder`: when the body raised an exception that
some handler matches, the handler's line is printed and the exception
is consumed; an unmatched exception propagates to the caller. -/
def runTryCatch (body : List String × Option CppExc)
    (handler : CppExc → Option String) : List String × Option CppExc :=
  match body with
  | (evs, none) => (evs, none)
  | (evs, some e) =>
    match handler e with
    | some line => (evs ++ [line], none)
    | none => (evs, some e)

/-- `demonstrateErrorHandling` (main.cpp:404) with the local
`denominator` as a parameter: its output events, paired with the
exception it lets propagate to the caller, if any. -/
def demonstrateErrorHandlingRun (denominator : Int) : List String × Option CppExc :=
  let body := runTryCatch (demonstrateErrorHandlingTry denominator) handlerFor
  (["\n----- Error Handling -----\n"] ++ body.1, body.2)

/-- The value of `denominator` in the source as shipped (main.cpp:412). -/
def actualDenominator : Int := 2

/-- Output of `demonstrateErrorHandling` as shipped. -/
def demonstrateErrorHandlingEvents : List String :=
  (demonstrateErrorHandlingRun actualDenominator).1

/-- Output of `demonstrateModernIO` (main.cpp:443).  All input sections
are commented out in the source, so the routine only writes.  Built as
pre-C++20 (`__cplusplus < 202002L`), so the `std::format` section
prints its unavailability notice.  Formatting of `num = 42` and
`pi = 3.14159265359`: hex with showbase is `0x2a`, fixed and printf
`%.2f` precision 2 give `3.14`, scientific precision 2 gives
`3.14e+00`; the parsed values `123`, `3.14`, `Hello` and `42` print
under default formatting. -/
def demonstrateModernIOEvents : List String :=
  ["\n----- Modern I/O Operations -----\n",
   "===== Modern Output Methods =====\n",
   "1. Traditional std::cout with concatenation\n",
   "2. Formatted output with manipulators:\n",
   "   Hex: 0x2a\n",
   "   Decimal: " ++ toString (42 : Int) ++ "\n",
   "   Fixed precision: 3.14\n",
   "   Scientific: 3.14e+00\n",
   "3. Using string streams:\n",
   "   String stream allows building complex strings: Value=42, Pi=3.14\n",
   "4. printf-style formatting:\n",
   "   Classic printf: num=42, pi=3.14\n",
   "5. C++20 std::format not available with current compiler settings\n",
   "6. Modern printing without std::endl (better performance)\n",
   "7. Using string_view: Efficient string_view for print operations\n",
   "\n===== Modern Input Methods =====\n",
   "1. Traditional std::cin (uncomment to use):\n",
   "2. Reading lines with std::getline (uncomment to use):\n",
   "3. Input with validation (uncomment to use):\n",
   "4. Using string streams for parsing:\n",
   "   Parsed int: " ++ toString (123 : Int) ++ "\n",
   "   Parsed double: 3.14\n",
   "   Parsed string: Hello\n",
   "5. Modern parsing approaches:\n",
   "   String to int: " ++ toString (42 : Int) ++ "\n",
   "6. Modern I/O best practices:\n",
   "   • Prefer '\\n' over std::endl when flushing isn't needed\n",
   "   • Use string_view when not modifying strings\n",
   "   • Use std::format in C++20 for readable formatting\n",
   "   • Consider using <charconv> for fast numeric conversions\n",
   "   • Always validate user input\n"]

/-- The demonstration routines, one constructor per routine declared in
the source's forward declarations (main.cpp:25). -/
inductive Routine where
  | basicSyntax
  | variablesAndTypes
  | controlFlow
  | functionsDemo
  | referencesAndPointers
  | classes
  | modernCpp
  | stlDemo
  | errorHandling
  | modernIODemo
deriving DecidableEq, BEq

/-- Output of one demonstration routine, as called from `main`
(`demonstrateFunctions` is called with argument `42`). -/
def routineEvents (r : Routine) (env : Env) : List String :=
  match r with
  | .basicSyntax => demonstrateBasicSyntaxEvents
  | .variablesAndTypes => demonstrateVariablesAndTypesEvents
  | .controlFlow => demonstrateControlFlowEvents
  | .functionsDemo => demonstrateFunctionsEvents 42
  | .referencesAndPointers => demonstrateReferencesAndPointersEvents env
  | .classes => demonstrateClassesEvents
  | .modernCpp => demonstrateModernCppEvents
  | .stlDemo => demonstrateStlEvents
  | .errorHandling => demonstrateErrorHandlingEvents
  | .modernIODemo => demonstrateModernIOEvents

/-- The order in which `main` (main.cpp:43) invokes the demonstration
routines. -/
def mainTrace : List Routine :=
  [.basicSyntax, .variablesAndTypes, .controlFlow, .functionsDemo,
   .referencesAndPointers, .classes, .modernCpp, .stlDemo,
   .errorHandling, .modernIODemo]

/-- Running a sequence of demonstration routines in order, starting
from the output accumulated so far: each routine appends its events to
the stream.  (There is no other program state for a routine to touch:
the source has no globals and the routines share no data.) -/
def runRoutines (env : Env) : List Routine → List String → List String
  | [], out => out
  | r :: rs, out => runRoutines env rs (out ++ routineEvents r env)

/-- Output of `main` (main.cpp:38): the banner, the ten demonstration
routines in `mainTrace` order with the `Sum:` line printed between the
fourth and fifth calls, and the closing line. -/
def mainEvents (env : Env) : List String :=
  ["==============================\n",
   "C++ Tutorial for C# and JS Developers\n",
   "==============================\n"]
  ++ routineEvents .basicSyntax env
  ++ routineEvents .variablesAndTypes env
  ++ routineEvents .controlFlow env
  ++ routineEvents .functionsDemo env
  ++ ["Sum: " ++ toString (returnSum 5 7) ++ "\n"]
  ++ routineEvents .referencesAndPointers env
  ++ routineEvents .classes env
  ++ routineEvents .modernCpp env
  ++ routineEvents .stlDemo env
  ++ routineEvents .errorHandling env
  ++ routineEvents .modernIODemo env
  ++ ["\nTutorial completed successfully!\n"]

/-- A complete run of the program: `int main()` takes no parameters and
the program never reads standard input (every input statement in the
source is inside a comment), so the translation of `main` consults
neither `stdinLines` nor `argv`; `main` ends with `return 0`. -/
def programRun (env : Env) (stdinLines argv : List String) : List String × Int :=
  (mainEvents env, 0)

/-- An arbitrary sample environment, used only to name the constant
parts of the output stream. -/
def sampleEnv : Env := ⟨""⟩

/-- The 56 output events printed before the pointer-address line; they
do not depend on the environment. -/
def mainPre : List String := (mainEvents sampleEnv).take 56

/-- The output events printed after the pointer-address line; they do
not depend on the environment. -/
def mainPost : List String := (mainEvents sampleEnv).drop 57

/-- The program's output decomposes into a constant prefix, the one
environment-dependent pointer-address line, and a constant suffix. -/
theorem mainEvents_decomp (env : Env) :
    mainEvents env =
      mainPre ++ (("Pointer address: " ++ env.addrStr ++ "\n") :: mainPost) := rfl

/-- C1 (counterexample): the claim that the division-by-zero error is
triggered when the program runs is false — in the source as shipped the
denominator is the concrete value 2, so the exception is never thrown
and the line `Runtime error: Division by zero!` appears nowhere in the
output of a run. -/
theorem c1_division_error_never_triggered :
    actualDenominator = 2 ∧
    ("Runtime error: Division by zero!\n") ∉ mainEvents ⟨"0x7ffc2a14"⟩ := by
  decide

/-- C1 (amended): the division-by-zero example is present but not
triggered in the program as shipped: with the source's denominator 2
the try-block completes normally, printing `Result: 5` and `vec[1]: 2`.
Had the denominator been 0 (as the source comment invites), the
exception would have been thrown, caught inside the routine, and
reported as `Runtime error: Division by zero!` without propagating. -/
theorem c1_division_error_example_conditional :
    (demonstrateErrorHandlingRun 0).1 =
      ["\n----- Error Handling -----\n",
       "Attempting division...\n",
       "Runtime error: Division by zero!\n"] ∧
    (demonstrateErrorHandlingRun 0).2 = none ∧
    (demonstrateErrorHandlingRun actualDenominator).1 =
      ["\n----- Error Handling -----\n",
       "Attempting division...\n",
       "Result: 5\n",
       "vec[1]: 2\n"] ∧
    (demonstrateErrorHandlingRun actualDenominator).2 = none := by
  decide

/-- C2: on every run — for every environment, every standard-input
content and every argument vector — the program terminates (the run
function is total) and exits with the fixed success status 0. -/
theorem c2_program_exits_with_success (env : Env) (stdinLines argv : List String) :
    (programRun env stdinLines argv).2 = 0 := rfl

/-- C3: `main` invokes the ten demonstration routines in the fixed
source order, and each routine is invoked exactly once. -/
theorem c3_routines_invoked_once_in_order :
    mainTrace =
      [.basicSyntax, .variablesAndTypes, .controlFlow, .functionsDemo,
       .referencesAndPointers, .classes, .modernCpp, .stlDemo,
       .errorHandling, .modernIODemo] ∧
    ∀ r : Routine, mainTrace.count r = 1 := by
  refine ⟨rfl, ?_⟩
  intro r
  cases r <;> rfl

/-- C4: every exception raised inside `demonstrateErrorHandling` is
caught inside the routine (for every value of the denominator, nothing
propagates to `main`), the catch ladder matches in source order —
`runtime_error` first, then `out_of_range`, then `std::exception`,
then the catch-all — printing the exception's message (the catch-all
prints its fixed notice), and no run exits with a nonzero status. -/
theorem c4_exceptions_caught_in_handler_order :
    (∀ d : Int, (demonstrateErrorHandlingRun d).2 = none) ∧
    (∀ e : CppExc, isRuntimeErr e = true →
      handlerFor e = some ("Runtime error: " ++ excWhat e ++ "\n")) ∧
    (∀ e : CppExc, isRuntimeErr e = false → isOutOfRangeErr e = true →
      handlerFor e = some ("Out of range error: " ++ excWhat e ++ "\n")) ∧
    (∀ e : CppExc, isRuntimeErr e = false → isOutOfRangeErr e = false →
      isStdErr e = true →
      handlerFor e = some ("Standard exception: " ++ excWhat e ++ "\n")) ∧
    (∀ e : CppExc, isStdErr e = false →
      handlerFor e = some ("Unknown exception occurred\n")) ∧
    (∀ (env : Env) (stdinLines argv : List String),
      (programRun env stdinLines argv).2 = 0) := by
  refine ⟨?_, ?_, ?_, ?_, ?_, fun _ _ _ => rfl⟩
  · intro d
    by_cases hd : d = 0 <;>
      simp [demonstrateErrorHandlingRun, demonstrateErrorHandlingTry,
        runTryCatch, handlerFor, isRuntimeErr, vecAt, hd]
  · intro e he
    cases e <;> simp_all [handlerFor, isRuntimeErr, excWhat]
  · intro e he₁ he₂
    cases e <;> simp_all [handlerFor, isRuntimeErr, isOutOfRangeErr, excWhat]
  · intro e he₁ he₂ he₃
    cases e <;>
      simp_all [handlerFor, isRuntimeErr, isOutOfRangeErr, isStdErr, excWhat]
  · intro e he
    cases e <;> simp_all [handlerFor, isRuntimeErr, isOutOfRangeErr, isStdErr]

/-- Witness for C4 at concrete inputs: the shipped try-block (and the
one with denominator 0) propagates nothing, each handler fires on a
concrete exception of its category, and a concrete run exits with 0. -/
theorem c4_exceptions_caught_in_handler_order_witness :
    (demonstrateErrorHandlingRun 0).2 = none ∧
    handlerFor (.runtimeError ("Division by zero!")) =
      some ("Runtime error: Division by zero!\n") ∧
    handlerFor (.outOfRange ("vector::_M_range_check")) =
      some ("Out of range error: vector::_M_range_check\n") ∧
    handlerFor (.otherStd ("bad_alloc")) =
      some ("Standard exception: bad_alloc\n") ∧
    handlerFor .nonStd = some ("Unknown exception occurred\n") ∧
    (programRun ⟨"0x7ffc2a14"⟩ [] []).2 = 0 :=
  ⟨c4_exceptions_caught_in_handler_order.1 0,
   c4_exceptions_caught_in_handler_order.2.1 _ rfl,
   c4_exceptions_caught_in_handler_order.2.2.1 _ rfl rfl,
   c4_exceptions_caught_in_handler_order.2.2.2.1 _ rfl rfl rfl,
   c4_exceptions_caught_in_handler_order.2.2.2.2.1 _ rfl,
   c4_exceptions_caught_in_handler_order.2.2.2.2.2 _ _ _⟩

/-- C5: `returnSum(5, 7)` returns exactly 12, and on every run `main`
prints the line `Sum: 12`. -/
theorem c5_sum_example_prints_twelve :
    returnSum 5 7 = 12 ∧ ∀ env : Env, ("Sum: 12\n") ∈ mainEvents env := by
  refine ⟨rfl, ?_⟩
  intro env
  rw [mainEvents_decomp]
  exact List.mem_append_left _ (by decide)

/-- C6: the program reads nothing from standard input and consults no
arguments: two runs in the same environment with arbitrary, possibly
different, standard-input contents and argument vectors produce the
identical output and exit status. -/
theorem c6_no_dependence_on_stdin_or_argv
    (env : Env) (stdin₁ stdin₂ argv₁ argv₂ : List String) :
    programRun env stdin₁ argv₁ = programRun env stdin₂ argv₂ := rfl

/-- C7: the demonstration routines are independent: running any
sequence of routines only appends, to the output accumulated so far,
each routine's own events — a function of that routine (and the run
environment) alone — so no routine's output depends on which routines
ran before it, and no routine reads or writes state of another. -/
theorem c7_routines_independent
    (rs : List Routine) (env : Env) (out : List String) :
    runRoutines env rs out =
      out ++ (rs.map (fun r => routineEvents r env)).flatten := by
  induction rs generalizing out with
  | nil => simp [runRoutines]
  | cons r rs ih => simp [runRoutines, ih]

/-- C8: `dave.introduce()` on the `Employee` object resolves to
`Employee::introduce`, printing name, age and company; the output of
`demonstrateClasses` contains exactly that line and not the line
`Person::introduce` would have printed for the same person. -/
theorem c8_employee_overrides_introduce :
    dave.introduce =
      "Hi, I'm Dave, 40 years old, and I work at Acme Inc.\n" ∧
    dave.introduce ∈ demonstrateClassesEvents ∧
    Person.introduce dave.toPerson ∉ demonstrateClassesEvents ∧
    dave.introduce ≠ Person.introduce dave.toPerson := by
  decide

/-- C9: `pop_back` directly after `push_back` restores any vector (in
particular the `numbers` vector of `demonstrateStl` is back to
`{10, 20, 30, 40, 50}`), and consequently `std::find` locates the
element 30 at position 2, as the routine's output records. -/
theorem c9_popBack_pushBack_identity :
    (∀ (xs : List Int) (x : Int), popBack (pushBack xs x) = xs) ∧
    popBack (pushBack stlNumbers 60) = stlNumbers ∧
    findIndexOf (popBack (pushBack stlNumbers 60)) 30 = some 2 ∧
    ("Found at position 2\n") ∈ demonstrateStlEvents := by
  refine ⟨?_, by decide, by decide, by decide⟩
  intro xs x
  simp [popBack, pushBack]

/-- C10: the program's output is not fully deterministic: it is the
fixed 56-event prefix `mainPre`, then the pointer-address line — which
differs between two runs whose environments render the address
differently — then the fixed suffix `mainPost`; every event other than
the pointer-address line is byte-for-byte identical across all runs. -/
theorem c10_pointer_line_sole_nondeterminism :
    (∀ env : Env,
      mainEvents env =
        mainPre ++ (("Pointer address: " ++ env.addrStr ++ "\n") :: mainPost)) ∧
    mainEvents ⟨"0x7ffc1000"⟩ ≠ mainEvents ⟨"0x7ffc2000"⟩ := by
  refine ⟨fun env => mainEvents_decomp env, ?_⟩
  decide

end CppTutorial
